import Mathlib

set_option maxHeartbeats 1000000

/-!
Verification of the token/authentication core of the contacts-management
backend: JWT codec (src/utils/tokens.py), token store and service
(src/repository/tokens.py, src/services/tokens.py), auth state machine
(src/services/auth.py) and authentication guard (src/utils/authenticate.py),
shallowly embedded as pure Lean functions over an explicit application state.
-/

/-- User account status, from src/database/models.py UserStatus. -/
inductive UserStatus where
  | REGISTERED
  | VERIFIED
  | DELETED
deriving DecidableEq

/-- User role, from src/database/models.py UserRole. -/
inductive UserRole where
  | USER
  | ADMIN
deriving DecidableEq

/-- Token type, from src/database/models.py TokenType. -/
inductive TokenType where
  | ACCESS
  | REFRESH
  | VERIFICATION
  | RESET
deriving DecidableEq

/-- The string value of a TokenType enum member. -/
def TokenType.toStr : TokenType → String
  | .ACCESS => "ACCESS"
  | .REFRESH => "REFRESH"
  | .VERIFICATION => "VERIFICATION"
  | .RESET => "RESET"

/-- Parsing a string back into a TokenType (pydantic enum validation). -/
def TokenType.fromStr : String → Option TokenType
  | "ACCESS" => some TokenType.ACCESS
  | "REFRESH" => some TokenType.REFRESH
  | "VERIFICATION" => some TokenType.VERIFICATION
  | "RESET" => some TokenType.RESET
  | _ => none

/-- A JSON-style claim value appearing in a JWT payload. -/
inductive JwtVal where
  | vint (n : Int)
  | vstr (s : String)
deriving DecidableEq

/-- A claims mapping (Python dict), as an ordered key-value list. -/
abbrev Claims := List (String × JwtVal)

/-- First-occurrence key lookup in a claims mapping (Python dict access). -/
def claimsGet : Claims → String → Option JwtVal
  | [], _ => none
  | (k, w) :: rest, key => if k = key then some w else claimsGet rest key

/-- Python dict.update with a single key: replace the value in place if the
key is present, otherwise append the new pair at the end. -/
def claimsSet : Claims → String → JwtVal → Claims
  | [], key, v => [(key, v)]
  | (k, w) :: rest, key, v =>
      if k = key then (key, v) :: rest else (k, w) :: claimsSet rest key v

/-- The environment-configured settings consumed by the token core,
from src/settings.py (JWT fields only). -/
structure Settings where
  JWT_ALGORITHM : String
  JWT_SECRET : String
  JWT_VERIFICATION_EXPIRATION_SECONDS : Nat
  JWT_ACCESS_EXPIRATION_SECONDS : Nat
  JWT_REFRESH_EXPIRATION_SECONDS : Nat
deriving DecidableEq

/-- A JWT string, abstracted: a correctly serialized token determined by the
signing secret, algorithm and payload, or an arbitrary malformed string. -/
inductive JwtString where
  | signed (secret : String) (alg : String) (payload : Claims)
  | malformed (raw : String)
deriving DecidableEq

/-- create_jwt from src/utils/tokens.py: if an expiration is given (and
nonzero, Python truthiness), set the absolute exp claim to now plus the ttl,
then sign with the configured secret and algorithm. -/
def create_jwt (s : Settings) (data : Claims) (expire_time_seconds : Option Nat)
    (now : Nat) : JwtString :=
  let d : Claims :=
    match expire_time_seconds with
    | some ttl => if ttl ≠ 0 then claimsSet data "exp" (.vint (now + ttl)) else data
    | none => data
  .signed s.JWT_SECRET s.JWT_ALGORITHM d

/-- PyJWT expiry validation: absent exp means no expiry check; an integer exp
is valid while now is strictly below it; a non-numeric exp is a decode error. -/
def validExp (payload : Claims) (now : Nat) : Bool :=
  match claimsGet payload "exp" with
  | none => true
  | some (.vint e) => decide ((now : Int) < e)
  | some (.vstr _) => false

/-- decode_jwt from src/utils/tokens.py: verify signature (secret and
algorithm) and expiry, returning the payload on success and none on any
failure (PyJWTError is caught and collapsed to None). -/
def decode_jwt (s : Settings) (token : JwtString) (now : Nat) : Option Claims :=
  match token with
  | .malformed _ => none
  | .signed sec alg payload =>
      if sec = s.JWT_SECRET ∧ alg = s.JWT_ALGORITHM ∧ validExp payload now then
        some payload
      else none

/-- A bcrypt hash, abstracted: determined by the hashed secret and the fresh
salt drawn at hashing time (src/utils/hashing.py). -/
structure HashedSecret where
  secret : String
  salt : Nat
deriving DecidableEq

/-- hash_secret from src/utils/hashing.py, with the salt made explicit. -/
def hash_secret (secret : String) (salt : Nat) : HashedSecret :=
  ⟨secret, salt⟩

/-- verify_secret from src/utils/hashing.py: bcrypt checkpw succeeds exactly
when the plain secret is the one that was hashed. -/
def verify_secret (plain_secret : String) (hashed_secret : HashedSecret) : Bool :=
  plain_secret = hashed_secret.secret

/-- A users-table row, from src/database/models.py User. -/
structure User where
  id : Int
  username : String
  email : String
  avatar_url : Option String
  password : HashedSecret
  status : UserStatus
  role : UserRole
deriving DecidableEq

/-- A tokens-table row, from src/database/models.py Token. -/
structure Token where
  id : Nat
  token : JwtString
  type : TokenType
  user_id : Int
deriving DecidableEq

/-- The persistent application state: the users and tokens tables together
with the autoincrement counters for their primary keys. -/
structure AppState where
  users : List User
  tokens : List Token
  next_user_id : Int
  next_token_id : Nat
deriving DecidableEq

/-- The HTTP error taxonomy raised by the auth core
(src/utils/exceptions.py), plus the store unique-constraint violation. -/
inductive ApiError where
  | unauthorized (detail : String)
  | notFound (detail : String)
  | conflict (detail : String)
  | constraintViolation
deriving DecidableEq

/-- BaseTokenPayloadModel from src/schemas/tokens.py: a validated token
payload carrying the token type and the user id. -/
structure BaseTokenPayloadModel where
  token_type : TokenType
  user_id : Int
deriving DecidableEq

/-- Pydantic validation of a decoded payload into BaseTokenPayloadModel:
requires a token_type claim naming a TokenType member and an integer
user_id claim; extra claims are ignored. -/
def parseBaseTokenPayload (payload : Claims) : Option BaseTokenPayloadModel :=
  match claimsGet payload "token_type", claimsGet payload "user_id" with
  | some (.vstr ts), some (.vint uid) =>
      match TokenType.fromStr ts with
      | some tt => some ⟨tt, uid⟩
      | none => none
  | _, _ => none

/-- get_token_or_none from src/services/tokens.py: fetch the stored token row
with the given opaque string, if any. -/
def TokensService.get_token_or_none (st : AppState) (token : JwtString) : Option Token :=
  st.tokens.find? (fun t => t.token == token)

/-- get_token_or_fail from src/services/tokens.py: as get_token_or_none but
raising HTTPNotFoundException when the row is absent. -/
def TokensService.get_token_or_fail (st : AppState) (token : JwtString) :
    Except ApiError Token :=
  match TokensService.get_token_or_none st token with
  | none => .error (.notFound "Token not found")
  | some t => .ok t

/-- Modelled from the spec: TokensService.get_token_or_none also accepts an
optional token_type filter (used by AuthService.logout, absent from
src/services/tokens.py); spec section 4.3, find(filter) selects by opaque
string and/or type. -/
def TokensService.get_token_or_none_typed (st : AppState) (token : JwtString)
    (token_type : Option TokenType) : Option Token :=
  st.tokens.find? (fun t =>
    t.token == token &&
      match token_type with
      | some ty => t.type == ty
      | none => true)

/-- Whether a row with the given token string already exists (the unique
constraint on Token.token in src/database/models.py). -/
def tokenStringExists (st : AppState) (token : JwtString) : Bool :=
  st.tokens.any (fun t => t.token == token)

/-- TokensRepository.create from src/repository/tokens.py: insert a new token
row with the next primary key; the insert fails on the unique constraint if
the token string is already present. -/
def TokensRepository.create (st : AppState) (token : JwtString) (ty : TokenType)
    (uid : Int) : Except ApiError Token × AppState :=
  if tokenStringExists st token then (.error .constraintViolation, st)
  else
    let newTok : Token := ⟨st.next_token_id, token, ty, uid⟩
    (.ok newTok,
      { st with tokens := st.tokens ++ [newTok],
                next_token_id := st.next_token_id + 1 })

/-- delete_token from src/services/tokens.py: look the row up by string via
get_token_or_fail, then delete it. -/
def TokensService.delete_token (st : AppState) (token : JwtString) :
    Except ApiError Token × AppState :=
  match TokensService.get_token_or_fail st token with
  | .error e => (.error e, st)
  | .ok t =>
      (.ok t, { st with tokens := st.tokens.filter (fun t2 => !(t2.token == token)) })

/-- delete_many_tokens from src/services/tokens.py over
TokensRepository.delete_many: bulk-delete every row whose string is in the
list. -/
def TokensService.delete_many_tokens (st : AppState) (tokens : List JwtString) :
    AppState :=
  { st with tokens := st.tokens.filter (fun t => !(tokens.contains t.token)) }

/-- get_tokens from src/services/tokens.py: filter the token rows by optional
user id and type; a user id filter of 0 is skipped (Python truthiness of the
user_id argument). -/
def TokensService.get_tokens (st : AppState) (user_id : Option Int)
    (ty : Option TokenType) : List Token :=
  st.tokens.filter (fun t =>
    (match user_id with
     | some uid => if uid == 0 then true else t.user_id == uid
     | none => true)
    &&
    (match ty with
     | some tt => t.type == tt
     | none => true))

/-- Modelled from the spec: the per-type token TTL configured in settings;
spec sections 4.4 and 6 name three independent TTLs (access, refresh,
verification/reset), so RESET shares the verification TTL. The generic
TokensService.create_token/generate_token that select the TTL are called by
src/services/auth.py and the tests but are absent from
src/services/tokens.py. -/
def expirationSeconds (s : Settings) : TokenType → Nat
  | .ACCESS => s.JWT_ACCESS_EXPIRATION_SECONDS
  | .REFRESH => s.JWT_REFRESH_EXPIRATION_SECONDS
  | .VERIFICATION => s.JWT_VERIFICATION_EXPIRATION_SECONDS
  | .RESET => s.JWT_VERIFICATION_EXPIRATION_SECONDS

/-- Modelled from the spec: TokensService.generate_token(token_type, payload),
spec section 4.4 generate(type, payload): encode the payload plus the token
type with the TTL configured for that type, statelessly. It generalizes
generate_access_token from src/services/tokens.py, which is its ACCESS
instance. -/
def TokensService.generate_token (s : Settings) (ty : TokenType) (uid : Int)
    (now : Nat) : JwtString :=
  create_jwt s [("user_id", .vint uid), ("token_type", .vstr ty.toStr)]
    (some (expirationSeconds s ty)) now

/-- Modelled from the spec: TokensService.create_token(token_type, payload),
spec section 4.4 create(type, payload): generate the signed string then
persist it via the token store. It generalizes create_verification_token and
create_refresh_token from src/services/tokens.py. -/
def TokensService.create_token (s : Settings) (st : AppState) (ty : TokenType)
    (uid : Int) (now : Nat) : Except ApiError Token × AppState :=
  TokensRepository.create st (TokensService.generate_token s ty uid now) ty uid

/-- get_by_email_or_none from src/services/users.py. -/
def UsersService.get_by_email_or_none (st : AppState) (email : String) : Option User :=
  st.users.find? (fun u => u.email == email)

/-- get_by_id_or_none from src/services/users.py. -/
def UsersService.get_by_id_or_none (st : AppState) (id : Int) : Option User :=
  st.users.find? (fun u => u.id == id)

/-- change_user_status_by_id from src/services/users.py: update the user row
in place, raising HTTPNotFoundException when the user is absent. -/
def UsersService.change_user_status_by_id (st : AppState) (id : Int)
    (status : UserStatus) : Except ApiError User × AppState :=
  match UsersService.get_by_id_or_none st id with
  | none => (.error (.notFound "User not found"), st)
  | some u =>
      (.ok { u with status := status },
       { st with users := st.users.map (fun v =>
           if v.id = id then { v with status := status } else v) })

/-- change_user_password_by_id from src/services/users.py: update the stored
password hash, raising HTTPNotFoundException when the user is absent. -/
def UsersService.change_user_password_by_id (st : AppState) (id : Int)
    (password : HashedSecret) : Except ApiError User × AppState :=
  match UsersService.get_by_id_or_none st id with
  | none => (.error (.notFound "User not found"), st)
  | some u =>
      (.ok { u with password := password },
       { st with users := st.users.map (fun v =>
           if v.id = id then { v with password := password } else v) })

/-- The access/refresh pair returned by login and refresh. -/
structure TokenPair where
  access_token : JwtString
  refresh_token : JwtString
deriving DecidableEq

/-- AuthService.login from src/services/auth.py: look the user up by email,
reject missing users, unverified and deleted accounts, then check the
password; on success issue a stateless ACCESS token and a persisted REFRESH
token. -/
def AuthService.login (s : Settings) (st : AppState) (email password : String)
    (now : Nat) : Except ApiError TokenPair × AppState :=
  match UsersService.get_by_email_or_none st email with
  | none => (.error (.unauthorized "Invalid email or password"), st)
  | some user =>
      if user.status = .REGISTERED then
        (.error (.unauthorized "User needs to verify their account"), st)
      else if user.status = .DELETED then
        (.error (.unauthorized "User account is deleted"), st)
      else if !(verify_secret password user.password) then
        (.error (.unauthorized "Invalid email or password"), st)
      else
        let access_token := TokensService.generate_token s .ACCESS user.id now
        match TokensService.create_token s st .REFRESH user.id now with
        | (.error e, st1) => (.error e, st1)
        | (.ok rt, st1) => (.ok ⟨access_token, rt.token⟩, st1)

/-- AuthService.refresh from src/services/auth.py: decode the presented
cookie token and look it up in the store; a stored token that fails to decode
or to validate is deleted before rejecting; a wrong payload type rejects
without deleting; otherwise a new ACCESS+REFRESH pair is issued and the old
REFRESH row deleted afterwards (rotation). -/
def AuthService.refresh (s : Settings) (st : AppState)
    (refresh_token : Option JwtString) (now : Nat) :
    Except ApiError TokenPair × AppState :=
  match refresh_token with
  | none => (.error (.unauthorized "Invalid refresh token"), st)
  | some rt =>
      let payload := decode_jwt s rt now
      match TokensService.get_token_or_none st rt with
      | none => (.error (.unauthorized "Invalid refresh token"), st)
      | some _ =>
          match payload with
          | none =>
              let r := TokensService.delete_token st rt
              (.error (.unauthorized "Invalid refresh token"), r.2)
          | some p =>
              match parseBaseTokenPayload p with
              | none =>
                  let r := TokensService.delete_token st rt
                  (.error (.unauthorized "Invalid refresh token"), r.2)
              | some vp =>
                  if vp.token_type ≠ .REFRESH then
                    (.error (.unauthorized "Invalid refresh token"), st)
                  else
                    let new_access := TokensService.generate_token s .ACCESS vp.user_id now
                    match TokensService.create_token s st .REFRESH vp.user_id now with
                    | (.error e, st1) => (.error e, st1)
                    | (.ok nrt, st1) =>
                        match TokensService.delete_token st1 rt with
                        | (.error e, st2) => (.error e, st2)
                        | (.ok _, st2) => (.ok ⟨new_access, nrt.token⟩, st2)

/-- AuthService.logout from src/services/auth.py: reject a missing cookie or
a token string not stored as a REFRESH row, otherwise delete the row. -/
def AuthService.logout (st : AppState) (refresh_token : Option JwtString) :
    Except ApiError Unit × AppState :=
  match refresh_token with
  | none => (.error (.unauthorized "Invalid refresh token"), st)
  | some rt =>
      match TokensService.get_token_or_none_typed st rt (some .REFRESH) with
      | none => (.error (.unauthorized "Invalid refresh token"), st)
      | some _ =>
          match TokensService.delete_token st rt with
          | (.error e, st1) => (.error e, st1)
          | (.ok _, st1) => (.ok (), st1)

/-- AuthService.verify_user from src/services/auth.py: decode and validate
the verification token (collapsing a store miss to Unauthorized), require the
referenced user to exist with status REGISTERED, then set the status to
VERIFIED and delete the consumed token. -/
def AuthService.verify_user (s : Settings) (st : AppState) (token : JwtString)
    (now : Nat) : Except ApiError Unit × AppState :=
  match decode_jwt s token now with
  | none => (.error (.unauthorized "Invalid token"), st)
  | some payload =>
      match parseBaseTokenPayload payload with
      | none => (.error (.unauthorized "Invalid token"), st)
      | some vp =>
          if vp.token_type ≠ .VERIFICATION then
            (.error (.unauthorized "Invalid token"), st)
          else
            match TokensService.get_token_or_fail st token with
            | .error _ => (.error (.unauthorized "Invalid token"), st)
            | .ok _ =>
                match UsersService.get_by_id_or_none st vp.user_id with
                | none => (.error (.notFound "User not found"), st)
                | some user =>
                    if user.status ≠ .REGISTERED then
                      (.error (.conflict "User is already verified"), st)
                    else
                      let r1 := UsersService.change_user_status_by_id st vp.user_id .VERIFIED
                      match r1.1 with
                      | .error e => (.error e, r1.2)
                      | .ok _ =>
                          match TokensService.delete_token r1.2 token with
                          | (.error e, st2) => (.error e, st2)
                          | (.ok _, st2) => (.ok (), st2)

/-- AuthService.resend_verification_email from src/services/auth.py: for an
existing, still-unverified user, delete every outstanding VERIFICATION token
of that user and issue a fresh one (the mail side effect is dropped). -/
def AuthService.resend_verification_email (s : Settings) (st : AppState)
    (email : String) (now : Nat) : Except ApiError Unit × AppState :=
  match UsersService.get_by_email_or_none st email with
  | none => (.error (.unauthorized "Invalid email"), st)
  | some user =>
      if user.status ≠ .REGISTERED then
        (.error (.conflict "User is already verified"), st)
      else
        let toks := TokensService.get_tokens st (some user.id) (some .VERIFICATION)
        let st1 := TokensService.delete_many_tokens st (toks.map Token.token)
        match TokensService.create_token s st1 .VERIFICATION user.id now with
        | (.error e, st2) => (.error e, st2)
        | (.ok _, st2) => (.ok (), st2)

/-- AuthService.forgot_password from src/services/auth.py: a missing email is
a silent no-op success; an unverified user is rejected Unauthorized;
otherwise all outstanding RESET tokens of the user are deleted and a fresh
one issued (the mail side effect is dropped). -/
def AuthService.forgot_password (s : Settings) (st : AppState) (email : String)
    (now : Nat) : Except ApiError Unit × AppState :=
  match UsersService.get_by_email_or_none st email with
  | none => (.ok (), st)
  | some user =>
      if user.status = .REGISTERED then
        (.error (.unauthorized "User needs to verify their account"), st)
      else
        let toks := TokensService.get_tokens st (some user.id) (some .RESET)
        let st1 := TokensService.delete_many_tokens st (toks.map Token.token)
        match TokensService.create_token s st1 .RESET user.id now with
        | (.error e, st2) => (.error e, st2)
        | (.ok _, st2) => (.ok (), st2)

/-- AuthService.reset_password from src/services/auth.py: decode and validate
the reset token (collapsing a store miss to Unauthorized), require the
referenced user to exist, then store the new password hash and delete the
consumed token. -/
def AuthService.reset_password (s : Settings) (st : AppState) (token : JwtString)
    (password : String) (salt : Nat) (now : Nat) : Except ApiError Unit × AppState :=
  match decode_jwt s token now with
  | none => (.error (.unauthorized "Invalid token"), st)
  | some payload =>
      match parseBaseTokenPayload payload with
      | none => (.error (.unauthorized "Invalid token"), st)
      | some vp =>
          if vp.token_type ≠ .RESET then
            (.error (.unauthorized "Invalid token"), st)
          else
            match TokensService.get_token_or_fail st token with
            | .error _ => (.error (.unauthorized "Invalid token"), st)
            | .ok _ =>
                match UsersService.get_by_id_or_none st vp.user_id with
                | none => (.error (.notFound "User not found"), st)
                | some user =>
                    let hp := hash_secret password salt
                    let r1 := UsersService.change_user_password_by_id st user.id hp
                    match r1.1 with
                    | .error e => (.error e, r1.2)
                    | .ok _ =>
                        match TokensService.delete_token r1.2 token with
                        | (.error e, st2) => (.error e, st2)
                        | (.ok _, st2) => (.ok (), st2)

/-- AuthService.signup from src/services/auth.py: reject an already-used
email with Conflict, otherwise create the user with hashed password and
default status REGISTERED and issue a persisted VERIFICATION token (the mail
side effect is dropped). -/
def AuthService.signup (s : Settings) (st : AppState)
    (username email password : String) (salt : Nat) (now : Nat) :
    Except ApiError Unit × AppState :=
  match UsersService.get_by_email_or_none st email with
  | some _ => (.error (.conflict "This email is already signed up"), st)
  | none =>
      let hp := hash_secret password salt
      let newUser : User :=
        ⟨st.next_user_id, username, email, none, hp, .REGISTERED, .USER⟩
      let st1 := { st with users := st.users ++ [newUser],
                           next_user_id := st.next_user_id + 1 }
      match TokensService.create_token s st1 .VERIFICATION newUser.id now with
      | (.error e, st2) => (.error e, st2)
      | (.ok _, st2) => (.ok (), st2)

/-- UserBaseModel from src/schemas/users.py: the identity snapshot returned
by the authentication guard (never the password hash). -/
structure UserBaseModel where
  id : Int
  username : String
  email : String
  avatar_url : Option String
  status : UserStatus
  role : UserRole
deriving DecidableEq

/-- The Redis user cache keyed by user id (src/utils/authenticate.py). -/
abbrev RedisCache := List (Int × UserBaseModel)

/-- Redis get on the user cache. -/
def redisGet (cache : RedisCache) (uid : Int) : Option UserBaseModel :=
  (cache.find? (fun p => p.1 == uid)).map Prod.snd

/-- authenticate from src/utils/authenticate.py: extract the bearer token
from the authorization header, decode it (a failed decode collapses to an
empty payload that fails validation), require the payload type to be ACCESS,
then resolve the user id through the cache or the user store, populating the
cache on a miss. -/
def authenticate (s : Settings) (st : AppState) (cache : RedisCache)
    (authorization : Option (String × JwtString)) (now : Nat) :
    Except ApiError UserBaseModel × RedisCache :=
  match authorization with
  | none => (.error (.unauthorized "Could not validate credentials"), cache)
  | some (scheme, token) =>
      if scheme ≠ "Bearer" then
        (.error (.unauthorized "Could not validate credentials"), cache)
      else
        let payload := (decode_jwt s token now).getD []
        match parseBaseTokenPayload payload with
        | none => (.error (.unauthorized "Could not validate credentials"), cache)
        | some vp =>
            if vp.token_type ≠ .ACCESS then
              (.error (.unauthorized "Could not validate credentials"), cache)
            else
              match redisGet cache vp.user_id with
              | some cached => (.ok cached, cache)
              | none =>
                  match UsersService.get_by_id_or_none st vp.user_id with
                  | none => (.error (.unauthorized "Could not validate credentials"), cache)
                  | some u =>
                      let snapshot : UserBaseModel :=
                        ⟨u.id, u.username, u.email, u.avatar_url, u.status, u.role⟩
                      (.ok snapshot, (vp.user_id, snapshot) :: cache)

deriving instance DecidableEq for Except

/-- Whether a stored token row matches a given type and owning user. -/
def tokenMatches (ty : TokenType) (uid : Int) (t : Token) : Bool :=
  t.type == ty && t.user_id == uid

/-- Number of stored tokens of the given type owned by the given user. -/
def countTokens (l : List Token) (ty : TokenType) (uid : Int) : Nat :=
  (l.filter (tokenMatches ty uid)).length

/-- At most one stored VERIFICATION token and at most one stored RESET token
per user, on a raw token-row list. -/
def SingleUseInvL (l : List Token) : Prop :=
  ∀ uid : Int, countTokens l .VERIFICATION uid ≤ 1 ∧ countTokens l .RESET uid ≤ 1

/-- The single-use-token invariant on an application state. -/
def SingleUseInv (st : AppState) : Prop := SingleUseInvL st.tokens

/-- Autoincrement well-formedness: every stored token belongs to an already
allocated user id (fresh user ids have no tokens yet). -/
def StateWF (st : AppState) : Prop :=
  ∀ t ∈ st.tokens, t.user_id < st.next_user_id

/-- A stored signed token row carries in its payload the type and owner it is
stored under; true of every row the Token Service itself creates. -/
def tokenRowConsistent (t : Token) : Bool :=
  match t.token with
  | .signed _ _ p =>
      claimsGet p "token_type" == some (.vstr t.type.toStr) &&
        claimsGet p "user_id" == some (.vint t.user_id)
  | .malformed _ => true

/-- Store consistency: every stored row is consistent in the above sense. -/
def TokensEncodeConsistent (st : AppState) : Prop :=
  ∀ t ∈ st.tokens, tokenRowConsistent t = true

/-- Cache consistency: every cached snapshot is stored under its own user id;
true of every entry the authentication guard itself writes. -/
def RedisCacheWF (cache : RedisCache) : Prop :=
  ∀ p ∈ cache, p.2.id = p.1

/-- Concrete settings used by the closed witness statements. -/
def s0 : Settings := ⟨"HS256", "topsecret", 3600, 900, 86400⟩

/-- A verified demo user. -/
def uVer : User := ⟨1, "verified", "ver@x.com", none, hash_secret "goodpass" 7, .VERIFIED, .USER⟩

/-- A registered (unverified) demo user. -/
def uReg : User := ⟨2, "reg", "reg@x.com", none, hash_secret "goodpass" 8, .REGISTERED, .USER⟩

/-- A soft-deleted demo user. -/
def uDel : User := ⟨3, "deleted", "del@x.com", none, hash_secret "goodpass" 9, .DELETED, .USER⟩

/-- A REFRESH token issued to the verified demo user at time 0. -/
def rtDemo : JwtString := TokensService.generate_token s0 .REFRESH 1 0

/-- A VERIFICATION token issued to the registered demo user at time 0. -/
def vtDemo : JwtString := TokensService.generate_token s0 .VERIFICATION 2 0

/-- A demo application state: three users, one stored REFRESH token for the
verified user and one stored VERIFICATION token for the registered user. -/
def stDemo : AppState :=
  ⟨[uVer, uReg, uDel], [⟨1, rtDemo, .REFRESH, 1⟩, ⟨2, vtDemo, .VERIFICATION, 2⟩], 4, 3⟩

/-- The ACCESS token a refresh at time 10 issues to the verified demo user. -/
def accDemo : JwtString := TokensService.generate_token s0 .ACCESS 1 10

/-- The rotated REFRESH token a refresh at time 10 issues. -/
def nrtDemo : JwtString := TokensService.generate_token s0 .REFRESH 1 10

/-- The state after refreshing rtDemo at time 10 on stDemo. -/
def stAfterRefresh : AppState :=
  ⟨[uVer, uReg, uDel], [⟨2, vtDemo, .VERIFICATION, 2⟩, ⟨3, nrtDemo, .REFRESH, 1⟩], 4, 4⟩

/-- An all-users demo state with an empty token store. -/
def stEmpty : AppState := ⟨[uVer, uReg, uDel], [], 4, 1⟩

/-- Setting a key then reading it back yields the written value. -/
theorem claimsGet_claimsSet (d : Claims) (k : String) (v : JwtVal) :
    claimsGet (claimsSet d k v) k = some v := by
  induction d with
  | nil => simp [claimsSet, claimsGet]
  | cons hd tl ih =>
      obtain ⟨k1, v1⟩ := hd
      by_cases h : k1 = k
      · simp [claimsSet, h, claimsGet]
      · simp [claimsSet, h, claimsGet, ih]

/-- Claim C6 (counterexample): with the empty claims mapping and ttl 1,
decoding immediately (time 0, before the ttl has elapsed) does not reproduce
the claims mapping exactly: the decoded mapping additionally contains the
expiry claim written by encode. -/
theorem jwt_roundtrip_counterexample :
    (0 : Nat) < 1 ∧
    decode_jwt s0 (create_jwt s0 [] (some 1) 0) 0 = some [("exp", .vint 1)] ∧
    decode_jwt s0 (create_jwt s0 [] (some 1) 0) 0 ≠ some ([] : Claims) := by
  decide

/-- Claim C6 (amended): for every claims mapping and positive ttl, decoding
the encoded string before the ttl has elapsed reproduces the claims mapping
with the expiry claim set to the issue time plus the ttl (all other keys
unchanged), and decoding once the ttl has elapsed returns null. -/
theorem jwt_roundtrip_amended (s : Settings) (claims : Claims) (ttl t0 t : Nat)
    (httl : 0 < ttl) :
    (t < t0 + ttl →
      decode_jwt s (create_jwt s claims (some ttl) t0) t =
        some (claimsSet claims "exp" (.vint (t0 + ttl)))) ∧
    (t0 + ttl ≤ t →
      decode_jwt s (create_jwt s claims (some ttl) t0) t = none) := by
  have hne : ttl ≠ 0 := Nat.pos_iff_ne_zero.mp httl
  constructor <;> intro ht <;>
    simp [create_jwt, decode_jwt, hne, validExp, claimsGet_claimsSet] <;>
    omega

/-- Claim C6 witness: concrete instance of the amended round-trip at claims
mapping with one key, ttl 1, issue time 0, decode times 0 and 5. -/
theorem jwt_roundtrip_amended_witness :
    (decode_jwt s0 (create_jwt s0 [("user_id", .vint 9)] (some 1) 0) 0 =
      some (claimsSet [("user_id", .vint 9)] "exp" (.vint 1))) ∧
    (decode_jwt s0 (create_jwt s0 [("user_id", .vint 9)] (some 1) 0) 5 = none) :=
  ⟨(jwt_roundtrip_amended s0 [("user_id", .vint 9)] 1 0 0 (by decide)).1 (by decide),
   (jwt_roundtrip_amended s0 [("user_id", .vint 9)] 1 0 5 (by decide)).2 (by decide)⟩

/-- Claim C8: decode is total with a null error result: it returns either
null or a payload (never throws), and returns null on malformed input, on a
signature or algorithm mismatch, and on an elapsed expiry. -/
theorem decode_jwt_total_null (s : Settings) (token : JwtString) (now : Nat) :
    (decode_jwt s token now = none ∨ ∃ p, decode_jwt s token now = some p) ∧
    (∀ raw, token = .malformed raw → decode_jwt s token now = none) ∧
    (∀ sec alg p, token = .signed sec alg p →
      sec ≠ s.JWT_SECRET ∨ alg ≠ s.JWT_ALGORITHM →
      decode_jwt s token now = none) ∧
    (∀ sec alg p e, token = .signed sec alg p →
      claimsGet p "exp" = some (.vint e) → e ≤ (now : Int) →
      decode_jwt s token now = none) := by
  refine ⟨?_, ?_, ?_, ?_⟩
  · cases h : decode_jwt s token now
    · exact .inl rfl
    · exact .inr ⟨_, rfl⟩
  · rintro raw rfl
    rfl
  · rintro sec alg p rfl hbad
    rcases hbad with h | h <;> simp [decode_jwt, h]
  · rintro sec alg p e rfl hexp hle
    simp [decode_jwt, validExp, hexp]
    intro h1 h2
    omega

/-- Claim C8 witness: decode returns null on a malformed string, on a token
signed with the wrong secret, and on an expired token. -/
theorem decode_jwt_total_null_witness :
    decode_jwt s0 (.malformed "xyz") 3 = none ∧
    decode_jwt s0 (.signed "wrongsecret" "HS256" []) 3 = none ∧
    decode_jwt s0 (.signed "topsecret" "HS256" [("exp", .vint 2)]) 3 = none :=
  ⟨(decode_jwt_total_null s0 (.malformed "xyz") 3).2.1 "xyz" rfl,
   (decode_jwt_total_null s0 (.signed "wrongsecret" "HS256" []) 3).2.2.1
     "wrongsecret" "HS256" [] rfl (.inl (by decide)),
   (decode_jwt_total_null s0 (.signed "topsecret" "HS256" [("exp", .vint 2)]) 3).2.2.2
     "topsecret" "HS256" [("exp", .vint 2)] 2 rfl (by decide) (by decide)⟩

/-- Deleting every row carrying a string makes lookups of that string fail. -/
theorem find?_token_filter_eq_none (l : List Token) (x : JwtString) :
    (l.filter (fun t2 => !(t2.token == x))).find? (fun t => t.token == x) = none := by
  rw [List.find?_eq_none]
  intro a ha
  have h2 := (List.mem_filter.mp ha).2
  simp only [Bool.not_eq_true'] at h2
  simp [h2]

/-- Unfolding a successful store insert: the string was fresh, the new row is
the appended one and the state gains exactly that row. -/
theorem create_ok_shape (st : AppState) (tok : JwtString) (ty : TokenType)
    (uid : Int) (t : Token) (st1 : AppState)
    (h : TokensRepository.create st tok ty uid = (.ok t, st1)) :
    tokenStringExists st tok = false ∧
    t = ⟨st.next_token_id, tok, ty, uid⟩ ∧
    st1 = { st with tokens := st.tokens ++ [t],
                    next_token_id := st.next_token_id + 1 } := by
  unfold TokensRepository.create at h
  split at h
  · simp at h
  · next hex =>
      simp only [Prod.mk.injEq, Except.ok.injEq] at h
      obtain ⟨h1, h2⟩ := h
      subst h1
      exact ⟨Bool.of_not_eq_true hex, rfl, h2.symm⟩

/-- Unfolding a successful delete: the post-state is the pre-state with every
row carrying the string filtered out. -/
theorem delete_token_ok_shape (st : AppState) (tokStr : JwtString) (t : Token)
    (st1 : AppState)
    (h : TokensService.delete_token st tokStr = (.ok t, st1)) :
    st1 = { st with tokens := st.tokens.filter (fun t2 => !(t2.token == tokStr)) } := by
  unfold TokensService.delete_token TokensService.get_token_or_fail at h
  split at h <;> simp_all

/-- A successful store lookup returns a stored row carrying the string. -/
theorem get_token_or_none_some (st : AppState) (x : JwtString) (t : Token)
    (h : TokensService.get_token_or_none st x = some t) :
    t ∈ st.tokens ∧ t.token = x := by
  refine ⟨List.mem_of_find?_eq_some h, ?_⟩
  have h2 := List.find?_some h
  simpa using h2

/-- If no stored row carries a string, every stored row differs from it. -/
theorem tokenStringExists_false (st : AppState) (x : JwtString)
    (h : tokenStringExists st x = false)
    (t : Token) (ht : t ∈ st.tokens) : t.token ≠ x := by
  intro heq
  unfold tokenStringExists at h
  rw [← Bool.not_eq_true, List.any_eq_true] at h
  exact h ⟨t, ht, by simp [heq]⟩

/-- Claim C1: refresh-token rotation is single-use. -/
theorem refresh_rotation_single_use
    (s : Settings) (st : AppState) (rt : JwtString) (now now2 : Nat)
    (pair : TokenPair) (st1 : AppState)
    (h : AuthService.refresh s st (some rt) now = (.ok pair, st1)) :
    pair.refresh_token ≠ rt ∧
    TokensService.get_token_or_none st1 rt = none ∧
    (AuthService.refresh s st1 (some rt) now2).1 =
      .error (.unauthorized "Invalid refresh token") := by
  unfold AuthService.refresh at h
  dsimp only at h
  cases hfind : TokensService.get_token_or_none st rt with
  | none => rw [hfind] at h; simp at h
  | some tok =>
      rw [hfind] at h
      cases hdec : decode_jwt s rt now with
      | none => simp only [hdec] at h; simp at h
      | some p =>
          simp only [hdec] at h
          cases hparse : parseBaseTokenPayload p with
          | none => simp only [hparse] at h; simp at h
          | some vp =>
              simp only [hparse] at h
              by_cases hty : vp.token_type = TokenType.REFRESH
              · simp only [hty, ne_eq, not_true_eq_false, if_false] at h
                cases hcr : TokensService.create_token s st TokenType.REFRESH vp.user_id now with
                | mk res stc =>
                    rw [hcr] at h
                    cases res with
                    | error e => simp at h
                    | ok nrt =>
                        dsimp only at h
                        cases hdel : TokensService.delete_token stc rt with
                        | mk dres std =>
                            rw [hdel] at h
                            cases dres with
                            | error e2 => simp at h
                            | ok dt =>
                                simp only [Prod.mk.injEq, Except.ok.injEq] at h
                                obtain ⟨hpair, hst⟩ := h
                                unfold TokensService.create_token at hcr
                                obtain ⟨hfresh, hnrt, hstc⟩ :=
                                  create_ok_shape st _ _ _ _ _ hcr
                                obtain ⟨hmem, htokstr⟩ :=
                                  get_token_or_none_some st rt tok hfind
                                have hstd := delete_token_ok_shape stc rt dt std hdel
                                have hne : nrt.token ≠ rt := by
                                  have h3 := tokenStringExists_false st _ hfresh tok hmem
                                  rw [hnrt]
                                  dsimp only
                                  intro heq
                                  exact h3 (htokstr.trans heq.symm)
                                have hnone : TokensService.get_token_or_none st1 rt = none := by
                                  rw [← hst, hstd]
                                  unfold TokensService.get_token_or_none
                                  exact find?_token_filter_eq_none _ _
                                refine ⟨?_, hnone, ?_⟩
                                · rw [← hpair]
                                  exact hne
                                · unfold AuthService.refresh
                                  dsimp only
                                  rw [hnone]
              · simp only [if_pos hty] at h
                simp at h

/-- Claim C1 witness: refreshing the stored demo REFRESH token at time 10
succeeds; the theorem instance yields rotation, deletion and replay failure. -/
theorem refresh_rotation_single_use_witness :
    (TokenPair.mk accDemo nrtDemo).refresh_token ≠ rtDemo ∧
    TokensService.get_token_or_none stAfterRefresh rtDemo = none ∧
    (AuthService.refresh s0 stAfterRefresh (some rtDemo) 11).1 =
      .error (.unauthorized "Invalid refresh token") :=
  refresh_rotation_single_use s0 stDemo rtDemo 10 11 ⟨accDemo, nrtDemo⟩
    stAfterRefresh (by decide)

/-- Claim C9: refresh consumes a stored token even on failure: a stored token
that does not decode, or whose decoded payload fails validation, is deleted
from the store before the Unauthorized rejection, so the store state changes
on this error path. -/
theorem refresh_consumes_on_failure
    (s : Settings) (st : AppState) (rt : JwtString) (now : Nat) (tok : Token)
    (hfound : TokensService.get_token_or_none st rt = some tok)
    (hbad : decode_jwt s rt now = none ∨
      ∃ p, decode_jwt s rt now = some p ∧ parseBaseTokenPayload p = none) :
    AuthService.refresh s st (some rt) now =
      (.error (.unauthorized "Invalid refresh token"),
       { st with tokens := st.tokens.filter (fun t2 => !(t2.token == rt)) }) ∧
    TokensService.get_token_or_none
      { st with tokens := st.tokens.filter (fun t2 => !(t2.token == rt)) } rt = none ∧
    ({ st with tokens := st.tokens.filter (fun t2 => !(t2.token == rt)) } : AppState) ≠ st := by
  obtain ⟨hmem, htokstr⟩ := get_token_or_none_some st rt tok hfound
  have hdel : TokensService.delete_token st rt =
      (.ok tok, { st with tokens := st.tokens.filter (fun t2 => !(t2.token == rt)) }) := by
    unfold TokensService.delete_token TokensService.get_token_or_fail
    rw [hfound]
  refine ⟨?_, ?_, ?_⟩
  · unfold AuthService.refresh
    dsimp only
    rw [hfound]
    rcases hbad with hdec | ⟨p, hdec, hparse⟩
    · rw [hdec]
      dsimp only
      rw [hdel]
    · rw [hdec]
      dsimp only
      rw [hparse]
      dsimp only
      rw [hdel]
  · unfold TokensService.get_token_or_none
    exact find?_token_filter_eq_none _ _
  · intro heq
    have htl := congrArg AppState.tokens heq
    dsimp only at htl
    have hin : tok ∈ st.tokens.filter (fun t2 => !(t2.token == rt)) := by
      rw [htl]; exact hmem
    have := (List.mem_filter.mp hin).2
    simp [htokstr] at this

/-- Claim C9 witness: a stored refresh token that has expired by time 100000
is found in the store, fails to decode, and the refresh call deletes it while
rejecting Unauthorized. -/
theorem refresh_consumes_on_failure_witness :
    AuthService.refresh s0 stDemo (some rtDemo) 100000 =
      (.error (.unauthorized "Invalid refresh token"),
       { stDemo with tokens := stDemo.tokens.filter (fun t2 => !(t2.token == rtDemo)) }) ∧
    TokensService.get_token_or_none
      { stDemo with tokens := stDemo.tokens.filter (fun t2 => !(t2.token == rtDemo)) } rtDemo = none ∧
    ({ stDemo with tokens := stDemo.tokens.filter (fun t2 => !(t2.token == rtDemo)) } : AppState) ≠ stDemo :=
  refresh_consumes_on_failure s0 stDemo rtDemo 100000 ⟨1, rtDemo, .REFRESH, 1⟩
    (by decide) (.inl (by decide))

/-- An id-preserving user update commutes with lookup by id. -/
theorem find?_users_map_update (l : List User) (uid : Int) (f : User → User)
    (hf : ∀ v, (f v).id = v.id) :
    (l.map f).find? (fun u => u.id == uid) =
      (l.find? (fun u => u.id == uid)).map f := by
  rw [List.find?_map]
  have hp : ((fun u : User => u.id == uid) ∘ f) = (fun u : User => u.id == uid) := by
    funext v
    simp [Function.comp, hf]
  rw [hp]

/-- Whenever a token decodes (at any two times), the decoded payload is the
same: it is the payload baked into the signed string. -/
theorem decode_jwt_payload_agree (s : Settings) (tok : JwtString)
    (n1 n2 : Nat) (p1 p2 : Claims)
    (h1 : decode_jwt s tok n1 = some p1) (h2 : decode_jwt s tok n2 = some p2) :
    p2 = p1 := by
  cases tok with
  | malformed raw => simp [decode_jwt] at h1
  | signed sec alg payload =>
      simp only [decode_jwt] at h1 h2
      split_ifs at h1 h2
      simp_all

/-- Claim C2: issued verification tokens are single-use: presented on a
REGISTERED user, the first verify call succeeds, flips the status to VERIFIED
and deletes the stored token, and a second call presenting the same token
fails Unauthorized at any time because the store lookup misses. -/
theorem verification_token_single_use
    (s : Settings) (st : AppState) (tok : JwtString) (p : Claims) (uid : Int)
    (user : User) (now : Nat)
    (hdec : decode_jwt s tok now = some p)
    (hparse : parseBaseTokenPayload p = some ⟨.VERIFICATION, uid⟩)
    (hstore : ∃ trow, TokensService.get_token_or_none st tok = some trow)
    (huser : UsersService.get_by_id_or_none st uid = some user)
    (hreg : user.status = .REGISTERED) :
    ∃ st1, AuthService.verify_user s st tok now = (.ok (), st1) ∧
      UsersService.get_by_id_or_none st1 uid = some { user with status := .VERIFIED } ∧
      TokensService.get_token_or_none st1 tok = none ∧
      ∀ now2, (AuthService.verify_user s st1 tok now2).1 =
        .error (.unauthorized "Invalid token") := by
  obtain ⟨trow, hstore⟩ := hstore
  have huid : user.id = uid := by
    have h2 := List.find?_some huser
    simpa using h2
  refine ⟨{ st with
      users := st.users.map (fun v =>
        if v.id = uid then { v with status := UserStatus.VERIFIED } else v),
      tokens := st.tokens.filter (fun t2 => !(t2.token == tok)) }, ?_, ?_, ?_, ?_⟩
  · unfold AuthService.verify_user
    rw [hdec]
    dsimp only
    rw [hparse]
    dsimp only
    simp only [ne_eq, not_true_eq_false, if_false]
    unfold TokensService.get_token_or_fail
    rw [hstore]
    dsimp only
    rw [huser]
    dsimp only
    simp only [hreg, ne_eq, not_true_eq_false, if_false]
    unfold UsersService.change_user_status_by_id
    rw [huser]
    dsimp only
    unfold TokensService.delete_token TokensService.get_token_or_fail
    unfold TokensService.get_token_or_none
    dsimp only
    rw [show st.tokens.find? (fun t => t.token == tok) = some trow from hstore]
  · unfold UsersService.get_by_id_or_none
    dsimp only
    rw [find?_users_map_update st.users uid _ (by
      intro v
      by_cases hv : v.id = uid <;> simp [hv])]
    rw [show st.users.find? (fun u => u.id == uid) = some user from huser]
    simp [huid]
  · unfold TokensService.get_token_or_none
    dsimp only
    exact find?_token_filter_eq_none _ _
  · intro now2
    unfold AuthService.verify_user
    cases hdec2 : decode_jwt s tok now2 with
    | none => rfl
    | some p2 =>
        have hp2 : p2 = p := decode_jwt_payload_agree s tok now now2 p p2 hdec hdec2
        subst hp2
        dsimp only
        rw [hparse]
        dsimp only
        simp only [ne_eq, not_true_eq_false, if_false]
        unfold TokensService.get_token_or_fail TokensService.get_token_or_none
        dsimp only
        rw [find?_token_filter_eq_none]

/-- Claim C2 witness: the stored demo VERIFICATION token for the registered
user, verified at time 10. -/
theorem verification_token_single_use_witness :
    ∃ st1, AuthService.verify_user s0 stDemo vtDemo 10 = (.ok (), st1) ∧
      UsersService.get_by_id_or_none st1 2 = some { uReg with status := .VERIFIED } ∧
      TokensService.get_token_or_none st1 vtDemo = none ∧
      ∀ now2, (AuthService.verify_user s0 st1 vtDemo now2).1 =
        .error (.unauthorized "Invalid token") :=
  verification_token_single_use s0 stDemo vtDemo
    [("user_id", .vint 2), ("token_type", .vstr "VERIFICATION"), ("exp", .vint 3600)]
    2 uReg 10 (by decide) (by decide) ⟨⟨2, vtDemo, .VERIFICATION, 2⟩, by decide⟩
    (by decide) (by decide)

/-- Claim C3 (counterexample): a user exists whose password does not match,
yet login does not answer with the message claimed for every status: for a
REGISTERED user the status check precedes the password check, so the message
is the status-specific one. -/
theorem login_wrong_password_message_counterexample :
    UsersService.get_by_email_or_none stDemo "reg@x.com" = some uReg ∧
    verify_secret "wrongpass" uReg.password = false ∧
    (AuthService.login s0 stDemo "reg@x.com" "wrongpass" 0).1 ≠
      .error (.unauthorized "Invalid email or password") ∧
    (AuthService.login s0 stDemo "reg@x.com" "wrongpass" 0).1 =
      .error (.unauthorized "User needs to verify their account") := by
  decide

/-- Claim C3 (amended): for a VERIFIED user (the only status that can pass
the preceding status checks) a wrong password yields Unauthorized with
exactly the message of a nonexistent email; for REGISTERED and DELETED users
the status-specific Unauthorized message is returned regardless of the
password. -/
theorem login_invalid_credentials_message
    (s : Settings) (st : AppState) (email email2 password : String) (user : User)
    (now : Nat)
    (hu : UsersService.get_by_email_or_none st email = some user)
    (hs : user.status = .VERIFIED)
    (hp : verify_secret password user.password = false)
    (hnone : UsersService.get_by_email_or_none st email2 = none) :
    (AuthService.login s st email password now).1 =
      .error (.unauthorized "Invalid email or password") ∧
    (AuthService.login s st email2 password now).1 =
      .error (.unauthorized "Invalid email or password") := by
  constructor
  · unfold AuthService.login
    rw [hu]
    dsimp only
    simp [hs, hp]
  · unfold AuthService.login
    rw [hnone]

/-- Claim C3 witness: the verified demo user with a wrong password, compared
against a nonexistent email. -/
theorem login_invalid_credentials_message_witness :
    (AuthService.login s0 stDemo "ver@x.com" "wrongpass" 0).1 =
      .error (.unauthorized "Invalid email or password") ∧
    (AuthService.login s0 stDemo "ghost@x.com" "wrongpass" 0).1 =
      .error (.unauthorized "Invalid email or password") :=
  login_invalid_credentials_message s0 stDemo "ver@x.com" "ghost@x.com"
    "wrongpass" uVer 0 (by decide) (by decide) (by decide) (by decide)

/-- The payload written by generate_token without an expiry validates to the
embedded type and user id. -/
theorem parse_gen_payload_noexp (ty : TokenType) (uid : Int) :
    parseBaseTokenPayload [("user_id", .vint uid), ("token_type", .vstr ty.toStr)] =
      some ⟨ty, uid⟩ := by
  cases ty <;>
    simp [parseBaseTokenPayload, claimsGet, TokenType.fromStr, TokenType.toStr]

/-- The payload written by generate_token with an expiry validates to the
embedded type and user id (the extra exp claim is ignored). -/
theorem parse_gen_payload (ty : TokenType) (uid : Int) (e : JwtVal) :
    parseBaseTokenPayload
      (claimsSet [("user_id", .vint uid), ("token_type", .vstr ty.toStr)] "exp" e) =
      some ⟨ty, uid⟩ := by
  cases ty <;>
    simp [parseBaseTokenPayload, claimsSet, claimsGet, TokenType.fromStr, TokenType.toStr]

/-- The expiry claim of the payload written by generate_token. -/
theorem claimsGet_gen_exp (ty : TokenType) (uid : Int) (e : JwtVal) :
    claimsGet
      (claimsSet [("user_id", .vint uid), ("token_type", .vstr ty.toStr)] "exp" e)
      "exp" = some e :=
  claimsGet_claimsSet _ _ _

/-- The base payload written by generate_token has no expiry claim. -/
theorem claimsGet_gen_noexp (ty : TokenType) (uid : Int) :
    claimsGet [("user_id", .vint uid), ("token_type", .vstr ty.toStr)] "exp" = none := by
  cases ty <;> simp [claimsGet, TokenType.toStr]

/-- A user found by id carries that id. -/
theorem get_by_id_some_id (st : AppState) (uid : Int) (u : User)
    (h : UsersService.get_by_id_or_none st uid = some u) : u.id = uid := by
  have h2 := List.find?_some h
  simpa using h2

/-- Under cache consistency, a cache hit returns a snapshot with the looked
up id. -/
theorem redisGet_some_id (cache : RedisCache) (uid : Int) (cu : UserBaseModel)
    (hwf : RedisCacheWF cache) (h : redisGet cache uid = some cu) : cu.id = uid := by
  unfold redisGet at h
  cases hf : cache.find? (fun p => p.1 == uid) with
  | none => rw [hf] at h; simp at h
  | some pr =>
      rw [hf] at h
      simp only [Option.map] at h
      have hm := List.mem_of_find?_eq_some hf
      have hp := List.find?_some hf
      have h1 := hwf pr hm
      simp only [beq_iff_eq] at hp
      injection h with h2
      rw [← h2, h1]
      exact hp

/-- A valid, unexpired ACCESS token passes the guard token checks: the guard
then resolves exactly the embedded user id through cache or store. -/
theorem authenticate_valid_access (s : Settings) (st : AppState)
    (cache : RedisCache) (uid : Int) (now0 now : Nat)
    (hfresh : now < now0 + s.JWT_ACCESS_EXPIRATION_SECONDS) :
    authenticate s st cache
      (some ("Bearer", TokensService.generate_token s .ACCESS uid now0)) now =
      match redisGet cache uid with
      | some cu => (.ok cu, cache)
      | none =>
          match UsersService.get_by_id_or_none st uid with
          | none => (.error (.unauthorized "Could not validate credentials"), cache)
          | some u =>
              (.ok ⟨u.id, u.username, u.email, u.avatar_url, u.status, u.role⟩,
               (uid, ⟨u.id, u.username, u.email, u.avatar_url, u.status, u.role⟩) :: cache)
      := by
  unfold authenticate TokensService.generate_token create_jwt
  dsimp only
  rw [if_neg (by simp : ¬("Bearer" ≠ "Bearer"))]
  by_cases httl : expirationSeconds s TokenType.ACCESS = 0
  · rw [if_neg (by simp [httl])]
    have hdec : decode_jwt s
        (JwtString.signed s.JWT_SECRET s.JWT_ALGORITHM
          [("user_id", JwtVal.vint uid), ("token_type", JwtVal.vstr TokenType.ACCESS.toStr)]) now =
        some [("user_id", JwtVal.vint uid), ("token_type", JwtVal.vstr TokenType.ACCESS.toStr)] := by
      unfold decode_jwt
      dsimp only
      rw [if_pos]
      refine ⟨rfl, rfl, ?_⟩
      unfold validExp
      rw [claimsGet_gen_noexp]
    rw [hdec]
    simp only [Option.getD_some, parse_gen_payload_noexp]
    rw [if_neg (by simp)]
  · rw [if_pos httl]
    have hlt : (now : Int) < (now0 : Int) + (expirationSeconds s TokenType.ACCESS : Int) := by
      have hx : expirationSeconds s TokenType.ACCESS = s.JWT_ACCESS_EXPIRATION_SECONDS := rfl
      rw [hx]
      exact_mod_cast hfresh
    have hdec : decode_jwt s
        (JwtString.signed s.JWT_SECRET s.JWT_ALGORITHM
          (claimsSet [("user_id", JwtVal.vint uid), ("token_type", JwtVal.vstr TokenType.ACCESS.toStr)]
            "exp" (JwtVal.vint ((now0 : Int) + (expirationSeconds s TokenType.ACCESS : Int))))) now =
        some (claimsSet [("user_id", JwtVal.vint uid), ("token_type", JwtVal.vstr TokenType.ACCESS.toStr)]
            "exp" (JwtVal.vint ((now0 : Int) + (expirationSeconds s TokenType.ACCESS : Int)))) := by
      unfold decode_jwt
      dsimp only
      rw [if_pos]
      refine ⟨rfl, rfl, ?_⟩
      unfold validExp
      rw [claimsGet_gen_exp]
      simpa using hlt
    rw [hdec]
    simp only [Option.getD_some, parse_gen_payload]
    rw [if_neg (by simp)]

/-- The guard rejects any bearer token that fails to decode. -/
theorem authenticate_error_of_decode_none (s : Settings) (st : AppState)
    (cache : RedisCache) (tok : JwtString) (now : Nat)
    (h : decode_jwt s tok now = none) :
    (authenticate s st cache (some ("Bearer", tok)) now).1 =
      .error (.unauthorized "Could not validate credentials") := by
  unfold authenticate
  dsimp only
  rw [if_neg (by simp : ¬("Bearer" ≠ "Bearer"))]
  rw [h]
  rfl

/-- An expired generated token no longer decodes. -/
theorem decode_jwt_generated_expired (s : Settings) (ty : TokenType) (uid : Int)
    (now0 now : Nat) (h0 : expirationSeconds s ty ≠ 0)
    (hexp : now0 + expirationSeconds s ty ≤ now) :
    decode_jwt s (TokensService.generate_token s ty uid now0) now = none := by
  unfold TokensService.generate_token create_jwt
  dsimp only
  rw [if_pos h0]
  unfold decode_jwt
  dsimp only
  rw [if_neg]
  rintro ⟨-, -, hv⟩
  unfold validExp at hv
  rw [claimsGet_gen_exp] at hv
  simp only [decide_eq_true_eq] at hv
  omega

/-- Claim C4: the authentication guard resolves exactly the issued identity:
a validly signed, unexpired ACCESS token resolves (with a consistent cache
and an existing or cached user) to the identity snapshot carrying the user id
embedded at issuance; an expired, tampered or malformed token, or a token
whose payload type is not ACCESS, fails Unauthorized. -/
theorem authenticate_resolves_issued_identity
    (s : Settings) (st : AppState) (cache : RedisCache) (now : Nat) :
    (∀ uid now0, RedisCacheWF cache →
      now < now0 + s.JWT_ACCESS_EXPIRATION_SECONDS →
      ((redisGet cache uid).isSome = true ∨
        ∃ u, UsersService.get_by_id_or_none st uid = some u) →
      ∃ ub, (authenticate s st cache
          (some ("Bearer", TokensService.generate_token s .ACCESS uid now0)) now).1 =
          .ok ub ∧ ub.id = uid) ∧
    (∀ uid now0, s.JWT_ACCESS_EXPIRATION_SECONDS ≠ 0 →
      now0 + s.JWT_ACCESS_EXPIRATION_SECONDS ≤ now →
      (authenticate s st cache
        (some ("Bearer", TokensService.generate_token s .ACCESS uid now0)) now).1 =
        .error (.unauthorized "Could not validate credentials")) ∧
    (∀ sec alg pl, sec ≠ s.JWT_SECRET ∨ alg ≠ s.JWT_ALGORITHM →
      (authenticate s st cache (some ("Bearer", .signed sec alg pl)) now).1 =
        .error (.unauthorized "Could not validate credentials")) ∧
    (∀ raw, (authenticate s st cache (some ("Bearer", .malformed raw)) now).1 =
        .error (.unauthorized "Could not validate credentials")) ∧
    (∀ tok p vp, decode_jwt s tok now = some p →
      parseBaseTokenPayload p = some vp → vp.token_type ≠ .ACCESS →
      (authenticate s st cache (some ("Bearer", tok)) now).1 =
        .error (.unauthorized "Could not validate credentials")) := by
  refine ⟨?_, ?_, ?_, ?_, ?_⟩
  · intro uid now0 hwf hfresh hresolve
    rw [authenticate_valid_access s st cache uid now0 now hfresh]
    cases hc : redisGet cache uid with
    | some cu =>
        exact ⟨cu, rfl, redisGet_some_id cache uid cu hwf hc⟩
    | none =>
        rcases hresolve with hs | ⟨u, hu⟩
        · rw [hc] at hs
          simp at hs
        · rw [hu]
          exact ⟨_, rfl, get_by_id_some_id st uid u hu⟩
  · intro uid now0 h0 hexp
    exact authenticate_error_of_decode_none s st cache _ now
      (decode_jwt_generated_expired s .ACCESS uid now0 now h0 hexp)
  · intro sec alg pl hbad
    refine authenticate_error_of_decode_none s st cache _ now ?_
    unfold decode_jwt
    dsimp only
    rw [if_neg]
    rintro ⟨h1, h2, -⟩
    rcases hbad with hb | hb
    · exact hb h1
    · exact hb h2
  · intro raw
    exact authenticate_error_of_decode_none s st cache _ now rfl
  · intro tok p vp hdec hparse hty
    unfold authenticate
    dsimp only
    rw [if_neg (by simp : ¬("Bearer" ≠ "Bearer"))]
    rw [hdec]
    dsimp only [Option.getD]
    rw [hparse]
    dsimp only
    rw [if_pos hty]

/-- Claim C4 witness: concrete guard runs on the demo state with an empty
cache: a fresh ACCESS token for user 1 resolves to id 1; the same token
expired, a tampered token, a malformed token and a REFRESH-typed token are
all rejected. -/
theorem authenticate_resolves_issued_identity_witness :
    (∃ ub, (authenticate s0 stDemo []
        (some ("Bearer", TokensService.generate_token s0 .ACCESS 1 0)) 10).1 =
        .ok ub ∧ ub.id = 1) ∧
    (authenticate s0 stDemo []
        (some ("Bearer", TokensService.generate_token s0 .ACCESS 1 0)) 2000).1 =
      .error (.unauthorized "Could not validate credentials") ∧
    (authenticate s0 stDemo [] (some ("Bearer", .signed "evil" "HS256" [])) 10).1 =
      .error (.unauthorized "Could not validate credentials") ∧
    (authenticate s0 stDemo [] (some ("Bearer", .malformed "zz")) 10).1 =
      .error (.unauthorized "Could not validate credentials") ∧
    (authenticate s0 stDemo [] (some ("Bearer", rtDemo)) 10).1 =
      .error (.unauthorized "Could not validate credentials") :=
  ⟨(authenticate_resolves_issued_identity s0 stDemo [] 10).1 1 0
      (by intro p hp; cases hp) (by decide) (.inr ⟨uVer, by decide⟩),
   (authenticate_resolves_issued_identity s0 stDemo [] 2000).2.1 1 0 (by decide) (by decide),
   (authenticate_resolves_issued_identity s0 stDemo [] 10).2.2.1 "evil" "HS256" []
     (.inl (by decide)),
   (authenticate_resolves_issued_identity s0 stDemo [] 10).2.2.2.1 "zz",
   (authenticate_resolves_issued_identity s0 stDemo [] 10).2.2.2.2 rtDemo
     [("user_id", .vint 1), ("token_type", .vstr "REFRESH"), ("exp", .vint 86400)]
     ⟨.REFRESH, 1⟩ (by decide) (by decide) (by decide)⟩

/-- Claim C10: the authentication guard never consults the user status: a
valid, unexpired ACCESS token for an existing user authenticates and returns
the snapshot (with whatever status the user has, DELETED and REGISTERED
included), while login for that user is blocked by those statuses. -/
theorem authenticate_ignores_user_status
    (s : Settings) (st : AppState) (cache : RedisCache) (uid : Int) (user : User)
    (password : String) (now0 now : Nat)
    (hcache : redisGet cache uid = none)
    (huser : UsersService.get_by_id_or_none st uid = some user)
    (hfresh : now < now0 + s.JWT_ACCESS_EXPIRATION_SECONDS)
    (hemail : UsersService.get_by_email_or_none st user.email = some user) :
    (authenticate s st cache
        (some ("Bearer", TokensService.generate_token s .ACCESS uid now0)) now).1 =
      .ok ⟨user.id, user.username, user.email, user.avatar_url, user.status, user.role⟩ ∧
    (user.status = .REGISTERED →
      (AuthService.login s st user.email password now).1 =
        .error (.unauthorized "User needs to verify their account")) ∧
    (user.status = .DELETED →
      (AuthService.login s st user.email password now).1 =
        .error (.unauthorized "User account is deleted")) := by
  refine ⟨?_, ?_, ?_⟩
  · rw [authenticate_valid_access s st cache uid now0 now hfresh]
    rw [hcache, huser]
  · intro hreg
    unfold AuthService.login
    rw [hemail]
    dsimp only
    simp [hreg]
  · intro hdel
    unfold AuthService.login
    rw [hemail]
    dsimp only
    simp [hdel]

/-- Claim C10 witness: a fresh ACCESS token for the soft-deleted demo user
authenticates and returns the DELETED snapshot, while login for that user
fails with the deleted-account message. -/
theorem authenticate_ignores_user_status_witness :
    (authenticate s0 stDemo []
        (some ("Bearer", TokensService.generate_token s0 .ACCESS 3 0)) 10).1 =
      .ok ⟨uDel.id, uDel.username, uDel.email, uDel.avatar_url, uDel.status, uDel.role⟩ ∧
    (uDel.status = .REGISTERED →
      (AuthService.login s0 stDemo uDel.email "goodpass" 10).1 =
        .error (.unauthorized "User needs to verify their account")) ∧
    (uDel.status = .DELETED →
      (AuthService.login s0 stDemo uDel.email "goodpass" 10).1 =
        .error (.unauthorized "User account is deleted")) :=
  authenticate_ignores_user_status s0 stDemo [] 3 uDel "goodpass" 0 10
    rfl (by decide) (by decide) (by decide)

/-- TokenType string values are distinct. -/
theorem TokenType.toStr_inj (t1 t2 : TokenType) (h : t1.toStr = t2.toStr) :
    t1 = t2 := by
  cases t1 <;> cases t2 <;> revert h <;> decide

/-- The token_type claim of a generated payload with expiry. -/
theorem claimsGet_gen_token_type (ty : TokenType) (uid : Int) (e : JwtVal) :
    claimsGet
      (claimsSet [("user_id", .vint uid), ("token_type", .vstr ty.toStr)] "exp" e)
      "token_type" = some (.vstr ty.toStr) := by
  cases ty <;> simp [claimsSet, claimsGet, TokenType.toStr]

/-- The user_id claim of a generated payload with expiry. -/
theorem claimsGet_gen_user_id (ty : TokenType) (uid : Int) (e : JwtVal) :
    claimsGet
      (claimsSet [("user_id", .vint uid), ("token_type", .vstr ty.toStr)] "exp" e)
      "user_id" = some (.vint uid) := by
  cases ty <;> simp [claimsSet, claimsGet, TokenType.toStr]

/-- The token_type claim of a generated payload without expiry. -/
theorem claimsGet_gen_token_type_noexp (ty : TokenType) (uid : Int) :
    claimsGet [("user_id", .vint uid), ("token_type", .vstr ty.toStr)]
      "token_type" = some (.vstr ty.toStr) := by
  cases ty <;> simp [claimsGet, TokenType.toStr]

/-- The user_id claim of a generated payload without expiry. -/
theorem claimsGet_gen_user_id_noexp (ty : TokenType) (uid : Int) :
    claimsGet [("user_id", .vint uid), ("token_type", .vstr ty.toStr)]
      "user_id" = some (.vint uid) := by
  cases ty <;> simp [claimsGet, TokenType.toStr]

/-- A stored row of the given type and owner is in the corresponding
get_tokens selection. -/
theorem mem_get_tokens_self (st : AppState) (uid : Int) (ty : TokenType)
    (x : Token) (hx : x ∈ st.tokens) (hty : x.type = ty) (huid : x.user_id = uid) :
    x ∈ TokensService.get_tokens st (some uid) (some ty) := by
  unfold TokensService.get_tokens
  rw [List.mem_filter]
  refine ⟨hx, ?_⟩
  by_cases h0 : uid = 0 <;> simp [h0, hty, huid]

/-- After purging every stored token of a type for a user, the string freshly
generated for that type and user collides with no surviving row (assuming the
store is consistent): any colliding row would itself be a row of that type
and user, hence purged. -/
theorem create_after_purge_fresh (s : Settings) (st : AppState) (uid : Int)
    (ty : TokenType) (now : Nat) (hc : TokensEncodeConsistent st) :
    tokenStringExists
      (TokensService.delete_many_tokens st
        ((TokensService.get_tokens st (some uid) (some ty)).map Token.token))
      (TokensService.generate_token s ty uid now) = false := by
  unfold tokenStringExists TokensService.delete_many_tokens
  rw [← Bool.not_eq_true, List.any_eq_true]
  rintro ⟨x, hx, hbeq⟩
  obtain ⟨hxmem, hkeep⟩ := List.mem_filter.mp hx
  rw [beq_iff_eq] at hbeq
  have hcx := hc x hxmem
  unfold tokenRowConsistent at hcx
  rw [hbeq] at hcx
  unfold TokensService.generate_token create_jwt at hcx
  dsimp only at hcx
  have hxy : x.type = ty ∧ x.user_id = uid := by
    by_cases httl : expirationSeconds s ty = 0
    · simp only [httl, ne_eq, not_true_eq_false, if_false] at hcx
      rw [claimsGet_gen_token_type_noexp, claimsGet_gen_user_id_noexp] at hcx
      simp only [Bool.and_eq_true, beq_iff_eq, Option.some.injEq,
        JwtVal.vstr.injEq, JwtVal.vint.injEq] at hcx
      exact ⟨(TokenType.toStr_inj ty x.type hcx.1).symm, hcx.2.symm⟩
    · rw [if_pos httl] at hcx
      rw [claimsGet_gen_token_type, claimsGet_gen_user_id] at hcx
      simp only [Bool.and_eq_true, beq_iff_eq, Option.some.injEq,
        JwtVal.vstr.injEq, JwtVal.vint.injEq] at hcx
      exact ⟨(TokenType.toStr_inj ty x.type hcx.1).symm, hcx.2.symm⟩
  have hsel := mem_get_tokens_self st uid ty x hxmem hxy.1 hxy.2
  have hmap : x.token ∈ (TokensService.get_tokens st (some uid) (some ty)).map Token.token :=
    List.mem_map_of_mem Token.token hsel
  have hcontains := List.elem_eq_true_of_mem hmap
  rw [List.contains, hcontains] at hkeep
  simp at hkeep

/-- Claim C7 (counterexample): for an existing user with status REGISTERED,
the forgot-password operation does not return the generic success: it raises
Unauthorized, revealing that the email belongs to an unverified account. -/
theorem forgot_password_unverified_counterexample :
    UsersService.get_by_email_or_none stDemo "reg@x.com" = some uReg ∧
    (AuthService.forgot_password s0 stDemo "reg@x.com" 0).1 =
      .error (.unauthorized "User needs to verify their account") ∧
    (AuthService.forgot_password s0 stDemo "reg@x.com" 0).1 ≠ .ok () := by
  decide

/-- Claim C7 (amended): the forgot-password operation returns the generic
success both when no user has the email and when the email belongs to a user
whose status is not REGISTERED (given a consistent token store); only for a
REGISTERED (unverified) user does it instead fail Unauthorized. -/
theorem forgot_password_generic_success
    (s : Settings) (st : AppState) (email : String) (now : Nat)
    (hc : TokensEncodeConsistent st) :
    (UsersService.get_by_email_or_none st email = none →
      (AuthService.forgot_password s st email now).1 = .ok ()) ∧
    (∀ user, UsersService.get_by_email_or_none st email = some user →
      user.status ≠ .REGISTERED →
      (AuthService.forgot_password s st email now).1 = .ok ()) ∧
    (∀ user, UsersService.get_by_email_or_none st email = some user →
      user.status = .REGISTERED →
      (AuthService.forgot_password s st email now).1 =
        .error (.unauthorized "User needs to verify their account")) := by
  refine ⟨?_, ?_, ?_⟩
  · intro h
    unfold AuthService.forgot_password
    rw [h]
  · intro user hu hns
    unfold AuthService.forgot_password
    rw [hu]
    dsimp only
    rw [if_neg hns]
    have hfresh := create_after_purge_fresh s st user.id .RESET now hc
    unfold TokensService.create_token TokensRepository.create
    rw [hfresh]
    rfl
  · intro user hu hr
    unfold AuthService.forgot_password
    rw [hu]
    dsimp only
    rw [if_pos hr]

/-- Claim C7 witness: on the demo state, a nonexistent email and the verified
user both get the generic success, while the registered user is rejected. -/
theorem forgot_password_generic_success_witness :
    (AuthService.forgot_password s0 stDemo "ghost@x.com" 0).1 = .ok () ∧
    (AuthService.forgot_password s0 stDemo "ver@x.com" 0).1 = .ok () ∧
    (AuthService.forgot_password s0 stDemo "reg@x.com" 0).1 =
      .error (.unauthorized "User needs to verify their account") :=
  ⟨(forgot_password_generic_success s0 stDemo "ghost@x.com" 0
      (by unfold TokensEncodeConsistent; decide)).1 (by decide),
   (forgot_password_generic_success s0 stDemo "ver@x.com" 0
      (by unfold TokensEncodeConsistent; decide)).2.1 uVer (by decide) (by decide),
   (forgot_password_generic_success s0 stDemo "reg@x.com" 0
      (by unfold TokensEncodeConsistent; decide)).2.2 uReg (by decide) (by decide)⟩

/-- Filtering never increases a per-user per-type token count. -/
theorem countTokens_filter_le (l : List Token) (p : Token → Bool)
    (ty : TokenType) (uid : Int) :
    countTokens (l.filter p) ty uid ≤ countTokens l ty uid := by
  unfold countTokens
  exact List.Sublist.length_le (List.Sublist.filter _ (List.filter_sublist l))

/-- Deleting rows preserves the single-use invariant. -/
theorem invL_filter (l : List Token) (p : Token → Bool) (h : SingleUseInvL l) :
    SingleUseInvL (l.filter p) := fun uid =>
  ⟨le_trans (countTokens_filter_le l p _ uid) (h uid).1,
   le_trans (countTokens_filter_le l p _ uid) (h uid).2⟩

/-- Appending one row adds one to the matching count and nothing else. -/
theorem countTokens_append_single (l : List Token) (t : Token)
    (ty : TokenType) (uid : Int) :
    countTokens (l ++ [t]) ty uid =
      countTokens l ty uid + (if tokenMatches ty uid t then 1 else 0) := by
  unfold countTokens
  rw [List.filter_append, List.length_append]
  congr 1
  by_cases hm : tokenMatches ty uid t <;> simp [hm]

/-- A count is zero when no row matches. -/
theorem countTokens_eq_zero (l : List Token) (ty : TokenType) (uid : Int)
    (h : ∀ x ∈ l, tokenMatches ty uid x = false) :
    countTokens l ty uid = 0 := by
  unfold countTokens
  rw [List.length_eq_zero, List.filter_eq_nil_iff]
  intro a ha
  simp [h a ha]

/-- Appending an ACCESS or REFRESH row preserves the single-use invariant. -/
theorem invL_append_nonsingle (l : List Token) (t : Token) (h : SingleUseInvL l)
    (hty : t.type = .ACCESS ∨ t.type = .REFRESH) :
    SingleUseInvL (l ++ [t]) := by
  intro uid
  have h1 := h uid
  rw [countTokens_append_single, countTokens_append_single]
  have hv : tokenMatches .VERIFICATION uid t = false := by
    rcases hty with h2 | h2 <;> simp [tokenMatches, h2]
  have hr : tokenMatches .RESET uid t = false := by
    rcases hty with h2 | h2 <;> simp [tokenMatches, h2]
  simp only [hv, hr, Bool.false_eq_true, if_false, Nat.add_zero]
  exact h1

/-- Appending after purging every row of the new row's type and owner keeps
counts at most one. -/
theorem count_purge_append_le (l : List Token) (strs : List JwtString) (t : Token)
    (ty : TokenType) (uid : Int) (h : countTokens l ty uid ≤ 1)
    (hcover : ∀ x ∈ l, x.type = t.type → x.user_id = t.user_id →
      strs.contains x.token = true) :
    countTokens ((l.filter (fun x => !(strs.contains x.token))) ++ [t]) ty uid ≤ 1 := by
  rw [countTokens_append_single]
  by_cases hm : tokenMatches ty uid t = true
  · have h0 : countTokens (l.filter (fun x => !(strs.contains x.token))) ty uid = 0 := by
      apply countTokens_eq_zero
      intro x hx
      obtain ⟨hxl, hkeep⟩ := List.mem_filter.mp hx
      rw [← Bool.not_eq_true]
      intro hxm
      simp only [tokenMatches, Bool.and_eq_true, beq_iff_eq] at hxm hm
      have hcov := hcover x hxl (hxm.1.trans hm.1.symm) (hxm.2.trans hm.2.symm)
      rw [hcov] at hkeep
      simp at hkeep
    rw [h0, hm]
    simp
  · rw [Bool.not_eq_true] at hm
    rw [hm]
    simp only [Bool.false_eq_true, if_false, Nat.add_zero]
    exact le_trans (countTokens_filter_le l _ ty uid) h

/-- Purge-then-insert preserves the single-use invariant. -/
theorem invL_purge_append (l : List Token) (strs : List JwtString) (t : Token)
    (h : SingleUseInvL l)
    (hcover : ∀ x ∈ l, x.type = t.type → x.user_id = t.user_id →
      strs.contains x.token = true) :
    SingleUseInvL ((l.filter (fun x => !(strs.contains x.token))) ++ [t]) :=
  fun uid => ⟨count_purge_append_le l strs t _ uid (h uid).1 hcover,
              count_purge_append_le l strs t _ uid (h uid).2 hcover⟩

/-- Appending a row for a user owning no rows keeps counts at most one. -/
theorem count_fresh_append_le (l : List Token) (t : Token) (ty : TokenType)
    (uid : Int) (h : countTokens l ty uid ≤ 1)
    (hfresh : ∀ x ∈ l, x.user_id ≠ t.user_id) :
    countTokens (l ++ [t]) ty uid ≤ 1 := by
  rw [countTokens_append_single]
  by_cases hm : tokenMatches ty uid t = true
  · have h0 : countTokens l ty uid = 0 := by
      apply countTokens_eq_zero
      intro x hx
      rw [← Bool.not_eq_true]
      intro hxm
      simp only [tokenMatches, Bool.and_eq_true, beq_iff_eq] at hxm hm
      exact hfresh x hx (hxm.2.trans hm.2.symm)
    rw [h0, hm]
    simp
  · rw [Bool.not_eq_true] at hm
    rw [hm]
    simp only [Bool.false_eq_true, if_false, Nat.add_zero]
    exact h

/-- Inserting a row for a token-less user preserves the invariant. -/
theorem invL_append_fresh (l : List Token) (t : Token) (h : SingleUseInvL l)
    (hfresh : ∀ x ∈ l, x.user_id ≠ t.user_id) :
    SingleUseInvL (l ++ [t]) :=
  fun uid => ⟨count_fresh_append_le l t _ uid (h uid).1 hfresh,
              count_fresh_append_le l t _ uid (h uid).2 hfresh⟩

/-- Status updates do not touch the token table. -/
theorem change_status_tokens (st : AppState) (id : Int) (status : UserStatus) :
    (UsersService.change_user_status_by_id st id status).2.tokens = st.tokens := by
  unfold UsersService.change_user_status_by_id
  split <;> rfl

/-- Password updates do not touch the token table. -/
theorem change_password_tokens (st : AppState) (id : Int) (password : HashedSecret) :
    (UsersService.change_user_password_by_id st id password).2.tokens = st.tokens := by
  unfold UsersService.change_user_password_by_id
  split <;> rfl

/-- Deleting a token preserves the single-use invariant. -/
theorem delete_token_preserves_inv (st : AppState) (tokStr : JwtString)
    (h : SingleUseInvL st.tokens) :
    SingleUseInvL (TokensService.delete_token st tokStr).2.tokens := by
  unfold TokensService.delete_token TokensService.get_token_or_fail
  split
  · exact h
  · exact invL_filter _ _ h

/-- Creating an ACCESS or REFRESH token preserves the single-use invariant. -/
theorem create_token_preserves_nonsingle (s : Settings) (st : AppState)
    (ty : TokenType) (uid : Int) (now : Nat)
    (h : SingleUseInvL st.tokens) (hty : ty = .ACCESS ∨ ty = .REFRESH) :
    SingleUseInvL (TokensService.create_token s st ty uid now).2.tokens := by
  unfold TokensService.create_token TokensRepository.create
  split
  · exact h
  · exact invL_append_nonsingle _ _ h hty

/-- Creating a token for a user owning no stored tokens preserves the
single-use invariant. -/
theorem create_token_preserves_fresh (s : Settings) (st : AppState)
    (ty : TokenType) (uid : Int) (now : Nat)
    (h : SingleUseInvL st.tokens) (hfresh : ∀ x ∈ st.tokens, x.user_id ≠ uid) :
    SingleUseInvL (TokensService.create_token s st ty uid now).2.tokens := by
  unfold TokensService.create_token TokensRepository.create
  split
  · exact h
  · exact invL_append_fresh _ _ h hfresh

/-- The invalidate-old-then-issue-new pattern (purge all stored tokens of a
type for a user, then create a fresh one) preserves the single-use
invariant. -/
theorem create_token_after_purge_preserves (s : Settings) (st : AppState)
    (ty : TokenType) (uid : Int) (now : Nat) (h : SingleUseInvL st.tokens) :
    SingleUseInvL (TokensService.create_token s
      (TokensService.delete_many_tokens st
        ((TokensService.get_tokens st (some uid) (some ty)).map Token.token))
      ty uid now).2.tokens := by
  unfold TokensService.create_token TokensRepository.create
    TokensService.delete_many_tokens
  dsimp only
  split
  · exact invL_filter _ _ h
  · apply invL_purge_append _ _ _ h
    intro x hx hty huid
    dsimp only at hty huid
    rw [List.contains]
    exact List.elem_eq_true_of_mem
      (List.mem_map_of_mem _ (mem_get_tokens_self st uid ty x hx hty huid))

/-- signup preserves the single-use invariant: the verification token is
issued to a freshly allocated user id that owns no tokens. -/
theorem signup_preserves_inv (s : Settings) (st : AppState)
    (username email password : String) (salt : Nat) (now : Nat)
    (hw : StateWF st) (h : SingleUseInv st) :
    SingleUseInv (AuthService.signup s st username email password salt now).2 := by
  unfold SingleUseInv at h ⊢
  unfold AuthService.signup
  split
  · exact h
  · dsimp only
    split
    all_goals
      rename_i v st2 heq
      have h2 := congrArg Prod.snd heq
      dsimp only at h2
      rw [← h2]
      apply create_token_preserves_fresh
      · exact h
      · intro x hx
        have hb := hw x hx
        omega

/-- verify_user preserves the single-use invariant: it only ever deletes. -/
theorem verify_user_preserves_inv (s : Settings) (st : AppState)
    (tok : JwtString) (now : Nat) (h : SingleUseInv st) :
    SingleUseInv (AuthService.verify_user s st tok now).2 := by
  unfold SingleUseInv at h ⊢
  unfold AuthService.verify_user
  split
  · exact h
  · split
    · exact h
    · split
      · exact h
      · split
        · exact h
        · split
          · exact h
          · split
            · exact h
            · dsimp only
              split
              · rw [change_status_tokens]
                exact h
              · split
                all_goals
                  rename_i v st2 heq
                  have h2 := congrArg Prod.snd heq
                  dsimp only at h2
                  rw [← h2]
                  apply delete_token_preserves_inv
                  rw [change_status_tokens]
                  exact h

/-- reset_password preserves the single-use invariant: it only ever deletes. -/
theorem reset_password_preserves_inv (s : Settings) (st : AppState)
    (tok : JwtString) (password : String) (salt : Nat) (now : Nat)
    (h : SingleUseInv st) :
    SingleUseInv (AuthService.reset_password s st tok password salt now).2 := by
  unfold SingleUseInv at h ⊢
  unfold AuthService.reset_password
  split
  · exact h
  · split
    · exact h
    · split
      · exact h
      · split
        · exact h
        · split
          · exact h
          · dsimp only
            split
            · rw [change_password_tokens]
              exact h
            · split
              all_goals
                rename_i v st2 heq
                have h2 := congrArg Prod.snd heq
                dsimp only at h2
                rw [← h2]
                apply delete_token_preserves_inv
                rw [change_password_tokens]
                exact h

/-- login preserves the single-use invariant: it only creates a REFRESH
token. -/
theorem login_preserves_inv (s : Settings) (st : AppState)
    (email password : String) (now : Nat) (h : SingleUseInv st) :
    SingleUseInv (AuthService.login s st email password now).2 := by
  unfold SingleUseInv at h ⊢
  unfold AuthService.login
  split
  · exact h
  · split
    · exact h
    · split
      · exact h
      · split
        · exact h
        · dsimp only
          split
          all_goals
            rename_i v st2 heq
            have h2 := congrArg Prod.snd heq
            dsimp only at h2
            rw [← h2]
            exact create_token_preserves_nonsingle s st .REFRESH _ now h (.inr rfl)

/-- refresh preserves the single-use invariant: it creates only a REFRESH
token and otherwise deletes. -/
theorem refresh_preserves_inv (s : Settings) (st : AppState)
    (rt : Option JwtString) (now : Nat) (h : SingleUseInv st) :
    SingleUseInv (AuthService.refresh s st rt now).2 := by
  unfold SingleUseInv at h ⊢
  unfold AuthService.refresh
  split
  · exact h
  · dsimp only
    split
    · exact h
    · split
      · dsimp only
        exact delete_token_preserves_inv _ _ h
      · split
        · dsimp only
          exact delete_token_preserves_inv _ _ h
        · split
          · exact h
          · split
            next nrt st1 heq =>
              have h2 := congrArg Prod.snd heq
              dsimp only at h2
              rw [← h2]
              exact create_token_preserves_nonsingle s st .REFRESH _ now h (.inr rfl)
            next nrt st1 heq =>
              have h2 := congrArg Prod.snd heq
              dsimp only at h2
              split
              all_goals
                rename_i v2 st2 heq2
                have h3 := congrArg Prod.snd heq2
                dsimp only at h3
                rw [← h3]
                apply delete_token_preserves_inv
                rw [← h2]
                exact create_token_preserves_nonsingle s st .REFRESH _ now h (.inr rfl)

/-- logout preserves the single-use invariant: it only deletes. -/
theorem logout_preserves_inv (st : AppState) (rt : Option JwtString)
    (h : SingleUseInv st) : SingleUseInv (AuthService.logout st rt).2 := by
  unfold SingleUseInv at h ⊢
  unfold AuthService.logout
  split
  · exact h
  · split
    · exact h
    · split
      all_goals
        rename_i v st1 heq
        have h2 := congrArg Prod.snd heq
        dsimp only at h2
        rw [← h2]
        exact delete_token_preserves_inv _ _ h

/-- resend_verification_email preserves the single-use invariant via the
purge-then-create pattern. -/
theorem resend_verification_preserves_inv (s : Settings) (st : AppState)
    (email : String) (now : Nat) (h : SingleUseInv st) :
    SingleUseInv (AuthService.resend_verification_email s st email now).2 := by
  unfold SingleUseInv at h ⊢
  unfold AuthService.resend_verification_email
  split
  · exact h
  · split
    · exact h
    · dsimp only
      split
      all_goals
        rename_i v st2 heq
        have h2 := congrArg Prod.snd heq
        dsimp only at h2
        rw [← h2]
        exact create_token_after_purge_preserves s st .VERIFICATION _ now h

/-- forgot_password preserves the single-use invariant via the
purge-then-create pattern. -/
theorem forgot_password_preserves_inv (s : Settings) (st : AppState)
    (email : String) (now : Nat) (h : SingleUseInv st) :
    SingleUseInv (AuthService.forgot_password s st email now).2 := by
  unfold SingleUseInv at h ⊢
  unfold AuthService.forgot_password
  split
  · exact h
  · split
    · exact h
    · dsimp only
      split
      all_goals
        rename_i v st2 heq
        have h2 := congrArg Prod.snd heq
        dsimp only at h2
        rw [← h2]
        exact create_token_after_purge_preserves s st .RESET _ now h

/-- Claim C5: at-most-one live single-use token per user: from a well-formed
state in which every user owns at most one stored VERIFICATION and at most
one stored RESET token, every auth operation (signup, verify,
resend_verification, forgot_password, reset_password, login, refresh,
logout) preserves that property, on its success and its error paths alike. -/
theorem auth_ops_preserve_single_use_invariant
    (s : Settings) (st : AppState) (hw : StateWF st) (hinv : SingleUseInv st) :
    (∀ username email password salt now,
      SingleUseInv (AuthService.signup s st username email password salt now).2) ∧
    (∀ tok now, SingleUseInv (AuthService.verify_user s st tok now).2) ∧
    (∀ email now,
      SingleUseInv (AuthService.resend_verification_email s st email now).2) ∧
    (∀ email now, SingleUseInv (AuthService.forgot_password s st email now).2) ∧
    (∀ tok password salt now,
      SingleUseInv (AuthService.reset_password s st tok password salt now).2) ∧
    (∀ email password now,
      SingleUseInv (AuthService.login s st email password now).2) ∧
    (∀ rt now, SingleUseInv (AuthService.refresh s st rt now).2) ∧
    (∀ rt, SingleUseInv (AuthService.logout st rt).2) :=
  ⟨fun username email password salt now =>
     signup_preserves_inv s st username email password salt now hw hinv,
   fun tok now => verify_user_preserves_inv s st tok now hinv,
   fun email now => resend_verification_preserves_inv s st email now hinv,
   fun email now => forgot_password_preserves_inv s st email now hinv,
   fun tok password salt now =>
     reset_password_preserves_inv s st tok password salt now hinv,
   fun email password now => login_preserves_inv s st email password now hinv,
   fun rt now => refresh_preserves_inv s st rt now hinv,
   fun rt => logout_preserves_inv st rt hinv⟩

/-- Claim C5 witness: every operation run concretely on the demo state with
an empty token store lands in a state satisfying the invariant. -/
theorem auth_ops_preserve_single_use_invariant_witness :
    SingleUseInv (AuthService.signup s0 stEmpty "bob" "bob@x.com" "hunter22" 1 0).2 ∧
    SingleUseInv (AuthService.verify_user s0 stEmpty vtDemo 10).2 ∧
    SingleUseInv (AuthService.resend_verification_email s0 stEmpty "reg@x.com" 0).2 ∧
    SingleUseInv (AuthService.forgot_password s0 stEmpty "ver@x.com" 0).2 ∧
    SingleUseInv (AuthService.reset_password s0 stEmpty vtDemo "newpass99" 2 5).2 ∧
    SingleUseInv (AuthService.login s0 stEmpty "ver@x.com" "goodpass" 0).2 ∧
    SingleUseInv (AuthService.refresh s0 stEmpty (some rtDemo) 10).2 ∧
    SingleUseInv (AuthService.logout stEmpty (some rtDemo)).2 :=
  have hT := auth_ops_preserve_single_use_invariant s0 stEmpty
    (fun t ht => absurd ht (List.not_mem_nil t))
    (fun _ => ⟨Nat.zero_le 1, Nat.zero_le 1⟩)
  ⟨hT.1 "bob" "bob@x.com" "hunter22" 1 0,
   hT.2.1 vtDemo 10,
   hT.2.2.1 "reg@x.com" 0,
   hT.2.2.2.1 "ver@x.com" 0,
   hT.2.2.2.2.1 vtDemo "newpass99" 2 5,
   hT.2.2.2.2.2.1 "ver@x.com" "goodpass" 0,
   hT.2.2.2.2.2.2.1 (some rtDemo) 10,
   hT.2.2.2.2.2.2.2 (some rtDemo)⟩
